import Mathlib

/-!
Verification of the Azure account-resolution module
(src/src/modules/azure.rs, src/src/configs/azure.rs).

The functions of the module are translated directly from the Rust source.
External collaborators (the INI crate, serde_json, the Context
environment/filesystem surface, and the StringFormatter template engine)
are not under src/, so they are modelled from the spec at their interface
boundary; concrete executable models back the witnesses.
-/

namespace Azure

/-- JSON values, the shape of `serde_json::Value` as used by the module:
null, booleans, numbers (kept as their lexeme), strings, arrays, objects. -/
inductive JValue where
  | null
  | bool (b : Bool)
  | num (s : String)
  | str (s : String)
  | arr (elems : List JValue)
  | obj (members : List (String × JValue))

/-- `value["key"]`: indexing a JSON value by a string key; returns Null when
the value is not an object or the key is missing, as serde_json does. -/
def JValue.index : JValue → String → JValue
  | .obj members, key => (members.lookup key).getD .null
  | _, _ => .null

/-- `Value::as_str`: Some for strings, None otherwise. -/
def JValue.as_str : JValue → Option String
  | .str s => some s
  | _ => none

/-- `Value::as_array`: Some for arrays, None otherwise. -/
def JValue.as_array : JValue → Option (List JValue)
  | .arr elems => some elems
  | _ => none

/-- A parsed INI document: sections (the general section keyed by `none`)
mapping to key/value properties, the shape of `ini::Ini` as used here. -/
structure IniDoc where
  sections : List (Option String × List (String × String))

/-- `Ini::section(Some(name))`: look up a section by name. -/
def IniDoc.findSection (ini : IniDoc) (name : Option String) :
    Option (List (String × String)) :=
  ini.sections.lookup name

/-- Bytes of a string (ASCII/latin-1 code points, enough for the inputs used). -/
def strBytes (s : String) : List Nat :=
  s.data.map Char.toNat

/-- `PathBuf::push`: append a component, adding a separator if needed. -/
def pushPath (p c : String) : String :=
  if p.data = [] then c
  else if p.data.getLast? = some '/' then p ++ c
  else p ++ "/" ++ c

/-- `slice::get(a..b)`: Some subslice when the range is in bounds. -/
def get_range (bytes : List Nat) (a b : Nat) : Option (List Nat) :=
  if b ≤ bytes.length then some ((bytes.drop a).take (b - a)) else none

/-- Modelled from the spec: the external collaborators at their interface
boundary (spec §6) — the grouped key-value (INI) parser, the JSON document
parser, and the template engine, which receives the format string and the
three variable-lookup maps (meta, style, content) the module supplies and
returns either rendered segments or a render error. -/
structure Extern where
  iniParse : List Nat → Option IniDoc
  jsonParse : List Nat → Option JValue
  formatterParse : String → (String → Option String) → (String → Option String)
    → (String → Option String) → Except String (List String)

/-- Modelled from the spec: the `Context` surface the module reads (repository
code outside src/): environment variables (`get_env`, absence = unset), the
home directory (`get_home`), and the contents of files on disk (absence =
missing or unreadable). -/
structure Context where
  env : String → Option String
  home : Option String
  files : String → Option (List Nat)

/-- `AzureConfig` from src/src/configs/azure.rs. -/
structure AzureConfig where
  format : String
  symbol : String
  style : String
  disabled : Bool

/-- The `Default` impl for `AzureConfig`. -/
def AzureConfig.default : AzureConfig :=
  { format := "on [$symbol($subscription)]($style) "
    symbol := "ﴃ "
    style := "blue bold"
    disabled := false }

/-- Outcome of running code that may panic (`Option::unwrap` on `None`). -/
inductive PanicOr (α : Type) where
  | panics
  | ok (val : α)
deriving DecidableEq

/-- `get_config_file_location` from src/src/modules/azure.rs:
the AZURE_CONFIG_DIR environment variable taken verbatim when set,
otherwise `<home>/.azure`, otherwise None. -/
def get_config_file_location (ctx : Context) : Option String :=
  match ctx.env "AZURE_CONFIG_DIR" with
  | some v => some v
  | none =>
    match ctx.home with
    | some home => some (pushPath home ".azure")
    | none => none

/-- `get_azure_subscription_id` from src/src/modules/azure.rs: reads
`clouds.config` under the config location, then unwraps the AzureCloud
section and its `subscription` key (panicking when either is missing). -/
def get_azure_subscription_id (ext : Extern) (ctx : Context) :
    PanicOr (Option String) :=
  match get_config_file_location ctx with
  | none => .ok none
  | some config_path =>
    let config_path := pushPath config_path "clouds.config"
    match (ctx.files config_path).bind ext.iniParse with
    | none => .ok none
    | some config_file =>
      match config_file.findSection (some "AzureCloud") with
      | none => .panics
      | some azure_cloud_section =>
        match azure_cloud_section.lookup "subscription" with
        | none => .panics
        | some current_subscription_id => .ok (some current_subscription_id)

/-- `parse_json` from src/src/modules/azure.rs: read the bytes of the file, test
`bytes.get(0..2)` against the three-byte BOM pattern (stripping the first
three bytes when it matches), then hand the result to the JSON parser. -/
def parse_json (ext : Extern) (ctx : Context) (json_file_path : String) :
    Option JValue :=
  match ctx.files json_file_path with
  | none => none
  | some buffer =>
    let bytes := buffer
    let decodedbuffer :=
      match get_range bytes 0 2 with
      | some s => if s = [239, 187, 191] then bytes.drop 3 else bytes
      | none => bytes
    ext.jsonParse decodedbuffer

/-- `find_subscription_name` from src/src/modules/azure.rs: a record yields
its `name` string when its `id` string equals the target identifier. -/
def find_subscription_name (subscription : JValue)
    (current_subscription_id : String) : Option String :=
  match (subscription.index "id").as_str with
  | none => none
  | some subscription_id =>
    if subscription_id = current_subscription_id then
      match (subscription.index "name").as_str with
      | none => none
      | some subscription_name => some subscription_name
    else none

/-- `get_azure_subscription_name` from src/src/modules/azure.rs: parse
`azureProfile.json`, take its `subscriptions` array, and scan it with
`find_map` for the first record yielding a name. -/
def get_azure_subscription_name (ext : Extern) (ctx : Context)
    (subscription_id : String) : Option String :=
  match get_config_file_location ctx with
  | none => none
  | some config_path =>
    let config_path := pushPath config_path "azureProfile.json"
    match parse_json ext ctx config_path with
    | some parsed_json =>
      match (parsed_json.index "subscriptions").as_array with
      | none => none
      | some subscriptions =>
        subscriptions.findSome?
          (fun s => find_subscription_name s subscription_id)
    | none => none

/-- What `module` produces: the segments set on the module (None when the
module returns None), plus the warning log entries emitted. -/
structure ModuleOutput where
  segments : Option (List String)
  warnings : List String
deriving DecidableEq

/-- `module` from src/src/modules/azure.rs. The `if config.disabled` body is
commented out in the source, so the flag is read and then discarded. -/
def module (ext : Extern) (ctx : Context) (config : AzureConfig) :
    PanicOr ModuleOutput :=
  let _disabled_check := if config.disabled then () else ()
  match get_azure_subscription_id ext ctx with
  | .panics => .panics
  | .ok none => .ok { segments := none, warnings := [] }
  | .ok (some subscription_id) =>
    match get_azure_subscription_name ext ctx subscription_id with
    | none => .ok { segments := none, warnings := [] }
    | some subscription_name =>
      let parsed := ext.formatterParse config.format
        (fun v => if v = "symbol" then some config.symbol else none)
        (fun v => if v = "style" then some config.style else none)
        (fun v => if v = "subscription" then some subscription_name else none)
      match parsed with
      | .ok segments => .ok { segments := some segments, warnings := [] }
      | .error error =>
        .ok { segments := none
              warnings := ["Error in module `azure`:\n" ++ error] }

/-! ## Concrete models of the external parsers

Modelled from the spec (§4.3 step 3 and §6): executable stand-ins for the
external JSON and INI parsers, used to instantiate `Extern` in witnesses and
counterexamples. The JSON model is a recursive-descent RFC-style parser: it
skips JSON whitespace, rejects anything that is not a JSON value — in
particular input starting with the byte 0xEF, since no JSON text starts with
it — and requires the whole input to be consumed. -/

/-- JSON whitespace bytes: space, tab, line feed, carriage return. -/
def isJsonWs (b : Nat) : Bool :=
  b = 32 || b = 9 || b = 10 || b = 13

/-- Drop leading JSON whitespace. -/
def skipWs : List Nat → List Nat
  | [] => []
  | b :: rest => if isJsonWs b then skipWs rest else b :: rest

/-- ASCII digit test. -/
def isDigitByte (b : Nat) : Bool :=
  48 ≤ b && b ≤ 57

/-- Value of a hex digit byte. -/
def hexVal (b : Nat) : Option Nat :=
  if 48 ≤ b && b ≤ 57 then some (b - 48)
  else if 97 ≤ b && b ≤ 102 then some (b - 87)
  else if 65 ≤ b && b ≤ 70 then some (b - 55)
  else none

/-- Parse the body of a JSON string (opening quote already consumed),
handling the escape sequences; returns the string and the remaining bytes. -/
def parseJString : Nat → List Nat → Option (String × List Nat)
  | 0, _ => none
  | _, [] => none
  | fuel + 1, b :: rest =>
    if b = 34 then some ("", rest)
    else if b = 92 then
      match rest with
      | [] => none
      | e :: rest2 =>
        let esc : Option Char :=
          if e = 34 then some '"'
          else if e = 92 then some '\\'
          else if e = 47 then some '/'
          else if e = 98 then some (Char.ofNat 8)
          else if e = 102 then some (Char.ofNat 12)
          else if e = 110 then some '\n'
          else if e = 114 then some '\r'
          else if e = 116 then some '\t'
          else none
        match esc with
        | some c =>
          (parseJString fuel rest2).map
            (fun p => (String.mk (c :: p.1.data), p.2))
        | none =>
          if e = 117 then
            match rest2 with
            | h1 :: h2 :: h3 :: h4 :: rest3 =>
              match hexVal h1, hexVal h2, hexVal h3, hexVal h4 with
              | some a, some b2, some c, some d =>
                (parseJString fuel rest3).map
                  (fun p =>
                    (String.mk (Char.ofNat (((a * 16 + b2) * 16 + c) * 16 + d)
                      :: p.1.data), p.2))
              | _, _, _, _ => none
            | _ => none
          else none
    else if b < 32 then none
    else
      (parseJString fuel rest).map
        (fun p => (String.mk (Char.ofNat b :: p.1.data), p.2))

/-- Take a maximal run of ASCII digits. -/
def spanDigits : List Nat → List Nat × List Nat
  | [] => ([], [])
  | b :: rest =>
    if isDigitByte b then
      let p := spanDigits rest
      (b :: p.1, p.2)
    else ([], b :: rest)

/-- Parse a JSON number, keeping its lexeme; returns it and the rest. -/
def parseNumber (bs : List Nat) : Option (List Nat × List Nat) :=
  let minusPart : List Nat × List Nat :=
    match bs with
    | 45 :: r => ([45], r)
    | _ => ([], bs)
  let intPart := spanDigits minusPart.2
  if intPart.1 = [] then none
  else
    let fracPart : Option (List Nat × List Nat) :=
      match intPart.2 with
      | 46 :: r =>
        let p := spanDigits r
        if p.1 = [] then none else some (46 :: p.1, p.2)
      | _ => some ([], intPart.2)
    match fracPart with
    | none => none
    | some fp =>
      let expPart : Option (List Nat × List Nat) :=
        match fp.2 with
        | 101 :: r =>
          match r with
          | 43 :: r2 =>
            let p := spanDigits r2
            if p.1 = [] then none else some (101 :: 43 :: p.1, p.2)
          | 45 :: r2 =>
            let p := spanDigits r2
            if p.1 = [] then none else some (101 :: 45 :: p.1, p.2)
          | _ =>
            let p := spanDigits r
            if p.1 = [] then none else some (101 :: p.1, p.2)
        | 69 :: r =>
          match r with
          | 43 :: r2 =>
            let p := spanDigits r2
            if p.1 = [] then none else some (69 :: 43 :: p.1, p.2)
          | 45 :: r2 =>
            let p := spanDigits r2
            if p.1 = [] then none else some (69 :: 45 :: p.1, p.2)
          | _ =>
            let p := spanDigits r
            if p.1 = [] then none else some (69 :: p.1, p.2)
        | _ => some ([], fp.2)
      match expPart with
      | none => none
      | some ep =>
        some (minusPart.1 ++ intPart.1 ++ fp.1 ++ ep.1, ep.2)

/-- Insert a member into an object accumulator; a duplicate key overwrites
the earlier entry, as map insertion in serde_json does. -/
def insertKV (acc : List (String × JValue)) (kv : String × JValue) :
    List (String × JValue) :=
  kv :: acc.filter (fun p => p.1 != kv.1)

mutual

/-- Parse one JSON value; returns it and the remaining bytes. -/
def parseValue : Nat → List Nat → Option (JValue × List Nat)
  | 0, _ => none
  | fuel + 1, bs =>
    match skipWs bs with
    | [] => none
    | b :: rest =>
      if b = 110 then
        match rest with
        | 117 :: 108 :: 108 :: r => some (.null, r)
        | _ => none
      else if b = 116 then
        match rest with
        | 114 :: 117 :: 101 :: r => some (.bool true, r)
        | _ => none
      else if b = 102 then
        match rest with
        | 97 :: 108 :: 115 :: 101 :: r => some (.bool false, r)
        | _ => none
      else if b = 34 then
        (parseJString (fuel + 1) rest).map (fun p => (.str p.1, p.2))
      else if b = 45 || isDigitByte b then
        (parseNumber (b :: rest)).map
          (fun p => (.num (String.mk (p.1.map Char.ofNat)), p.2))
      else if b = 91 then
        match skipWs rest with
        | 93 :: r => some (.arr [], r)
        | _ =>
          match parseValue fuel rest with
          | some (v, r2) => parseArrayRest fuel r2 [v]
          | none => none
      else if b = 123 then
        match skipWs rest with
        | 125 :: r => some (.obj [], r)
        | _ =>
          match parseMember fuel rest with
          | some (kv, r2) => parseObjRest fuel r2 (insertKV [] kv)
          | none => none
      else none

/-- After an array element: a comma and another element, or the close. -/
def parseArrayRest : Nat → List Nat → List JValue →
    Option (JValue × List Nat)
  | 0, _, _ => none
  | fuel + 1, bs, acc =>
    match skipWs bs with
    | 93 :: r => some (.arr acc.reverse, r)
    | 44 :: r =>
      match parseValue fuel r with
      | some (v, r2) => parseArrayRest fuel r2 (v :: acc)
      | none => none
    | _ => none

/-- One object member: a string key, a colon, a value. -/
def parseMember : Nat → List Nat → Option ((String × JValue) × List Nat)
  | 0, _ => none
  | fuel + 1, bs =>
    match skipWs bs with
    | 34 :: r =>
      match parseJString (fuel + 1) r with
      | some (k, r2) =>
        match skipWs r2 with
        | 58 :: r3 =>
          match parseValue fuel r3 with
          | some (v, r4) => some ((k, v), r4)
          | none => none
        | _ => none
      | none => none
    | _ => none

/-- After an object member: a comma and another member, or the close. -/
def parseObjRest : Nat → List Nat → List (String × JValue) →
    Option (JValue × List Nat)
  | 0, _, _ => none
  | fuel + 1, bs, acc =>
    match skipWs bs with
    | 125 :: r => some (.obj acc.reverse, r)
    | 44 :: r =>
      match parseMember fuel r with
      | some (kv, r2) => parseObjRest fuel r2 (insertKV acc kv)
      | none => none
    | _ => none

end

/-- Modelled from the spec: the external JSON parser (the `from_slice`
entry point of `serde_json`, at the interface boundary the spec draws): parse one JSON value and
require only whitespace to remain. Input starting with a byte-order mark is
malformed, since no JSON value starts with the byte 0xEF. -/
def jsonParseModel (bs : List Nat) : Option JValue :=
  match parseValue (bs.length + 1) bs with
  | some (v, rest) => if skipWs rest = [] then some v else none
  | none => none

/-- Horizontal whitespace for INI trimming. -/
def isSpaceChar (c : Char) : Bool :=
  c = ' ' || c = '\t' || c = '\r'

/-- Trim leading and trailing whitespace from a character list. -/
def trimChars (cs : List Char) : List Char :=
  ((cs.dropWhile isSpaceChar).reverse.dropWhile isSpaceChar).reverse

/-- Split a character list into lines at each line feed. -/
def splitLines : List Char → List (List Char)
  | [] => [[]]
  | c :: rest =>
    if c = '\n' then [] :: splitLines rest
    else
      match splitLines rest with
      | l :: ls => (c :: l) :: ls
      | [] => [[c]]

/-- Break a character list at its first `=`, when there is one. -/
def breakEq : List Char → Option (List Char × List Char)
  | [] => none
  | c :: rest =>
    if c = '=' then some ([], rest)
    else (breakEq rest).map (fun p => (c :: p.1, p.2))

/-- Record a `key=value` property under the current section of an INI
accumulator. -/
def iniAddProp (doc : IniDoc) (target : Option String)
    (entry : String × String) : IniDoc :=
  match doc.sections.lookup target with
  | some props =>
    ⟨doc.sections.map
      (fun sec => if sec.1 = target then (sec.1, props ++ [entry]) else sec)⟩
  | none => ⟨doc.sections ++ [(target, [entry])]⟩

/-- One line of an INI document against the current accumulator: a `[name]`
header opens a section, `key=value` adds a property to the current section
(keys and values trimmed), blank lines and `;`/`#` comments are skipped,
anything else is a parse error. -/
def iniLine (line : List Char) (acc : IniDoc × Option String) :
    Option (IniDoc × Option String) :=
  let t := trimChars line
  match t with
  | [] => some acc
  | c :: middle =>
    if c = ';' || c = '#' then some acc
    else if c = '[' && t.getLast? = some ']' then
      let name := String.mk middle.dropLast
      some (⟨acc.1.sections ++ [(some name, [])]⟩, some name)
    else
      match breakEq t with
      | some (key, value) =>
        let entry := (String.mk (trimChars key), String.mk (trimChars value))
        some (iniAddProp acc.1 acc.2 entry, acc.2)
      | none => none

/-- Modelled from the spec: the external grouped key-value (INI) parser
(`Ini::load_from_file` after the file read), processing the document line by
line. -/
def iniParseModel (bs : List Nat) : Option IniDoc :=
  let step := fun (acc : Option (IniDoc × Option String)) (line : List Char) =>
    acc.bind (iniLine line)
  ((splitLines (bs.map Char.ofNat)).foldl step (some (⟨[]⟩, none))).map
    (fun a => a.1)

/-! ## Concrete instances for witnesses and counterexamples -/

/-- Externals instantiated with the concrete parser models and a template
engine that renders successfully. -/
def extModel : Extern :=
  { iniParse := iniParseModel
    jsonParse := jsonParseModel
    formatterParse := fun _ _ _ content =>
      match content "subscription" with
      | some n => .ok ["on ", n]
      | none => .error "unknown variable" }

/-- Externals whose template engine reports a render error. -/
def extModelErr : Extern :=
  { extModel with formatterParse := fun _ _ _ _ => .error "bad template" }

/-- A context whose config directory is `dir` (via AZURE_CONFIG_DIR) and
whose two provider files have the given contents (absent when `none`). -/
def mkCtx (dir : String) (clouds profile : Option String) : Context :=
  { env := fun k => if k = "AZURE_CONFIG_DIR" then some dir else none
    home := some "/home/user"
    files := fun p =>
      if p = pushPath dir "clouds.config" then clouds.map strBytes
      else if p = pushPath dir "azureProfile.json" then profile.map strBytes
      else none }

/-- A clouds.config whose AzureCloud section names subscription `I`. -/
def cloudsOk : String := "[AzureCloud]\nsubscription=I\n"

/-- A clouds.config that parses but has no AzureCloud section. -/
def cloudsNoSection : String := "[OtherCloud]\nsubscription=I\n"

/-- A clouds.config whose AzureCloud section lacks the subscription key. -/
def cloudsNoKey : String := "[AzureCloud]\ntenant=T\n"

/-- A profile with two records sharing id `I` (names `Sub A`, `Sub B`). -/
def profileDup : String :=
  "\x7b\"subscriptions\": [\x7b\"id\": \"I\", \"name\": \"Sub A\"\x7d, \x7b\"id\": \"I\", \"name\": \"Sub B\"\x7d]\x7d"

/-- A profile whose first record with id `I` has a non-string name and whose
second record with id `I` has name `Sub B`. -/
def profileDupBadName : String :=
  "\x7b\"subscriptions\": [\x7b\"id\": \"I\", \"name\": 42\x7d, \x7b\"id\": \"I\", \"name\": \"Sub B\"\x7d]\x7d"

/-- A profile containing only the first (bad-name) record with id `I`. -/
def profileBadNameOnly : String :=
  "\x7b\"subscriptions\": [\x7b\"id\": \"I\", \"name\": 42\x7d]\x7d"

/-- A profile whose subscriptions array is empty. -/
def profileEmpty : String := "\x7b\"subscriptions\": []\x7d"

/-- A profile whose records all have ids different from `I`. -/
def profileNoMatch : String :=
  "\x7b\"subscriptions\": [\x7b\"id\": \"J\", \"name\": \"Sub J\"\x7d]\x7d"

/-- A profile with no subscriptions field. -/
def profileNoSubs : String := "\x7b\"other\": 1\x7d"

/-- A profile whose subscriptions field is not an array. -/
def profileSubsNotArr : String := "\x7b\"subscriptions\": \"oops\"\x7d"

/-- Bytes that are not valid JSON. -/
def malformedJson : String := "not json"

/-- A record whose id is `I` but whose name is the number 42. -/
def subBadName : JValue := .obj [("id", .str "I"), ("name", .num "42")]

/-- A record whose id is `I` and whose name is the string `Sub B`. -/
def subGoodName : JValue := .obj [("id", .str "I"), ("name", .str "Sub B")]

/-- A record whose id is the number 7 (not a string). -/
def subNumId : JValue := .obj [("id", .num "7"), ("name", .str "X")]

/-- The first record of the duplicate profile: id `I`, name `Sub A`. -/
def subDupA : JValue := .obj [("id", .str "I"), ("name", .str "Sub A")]

/-- The second record of `profileDup`: id `I`, name `Sub B`. -/
def subDupB : JValue := .obj [("id", .str "I"), ("name", .str "Sub B")]

/-- A context with no environment override, no home and no files. -/
def ctxBare : Context :=
  { env := fun _ => none, home := none, files := fun _ => none }

/-- A context whose AZURE_CONFIG_DIR is set to the empty string while a home
directory is resolvable. -/
def ctxEmptyEnv : Context :=
  { env := fun k => if k = "AZURE_CONFIG_DIR" then some "" else none
    home := some "/home/user"
    files := fun _ => none }

/-- A context whose profile file starts with the UTF-8 byte-order mark
followed by `profileEmpty`. -/
def ctxBom : Context :=
  { env := fun k => if k = "AZURE_CONFIG_DIR" then some "/cfg" else none
    home := some "/home/user"
    files := fun p =>
      if p = "/cfg/azureProfile.json" then
        some ([239, 187, 191] ++ strBytes profileEmpty)
      else none }

/-- The same context as `ctxBom` but without the byte-order mark. -/
def ctxPlain : Context :=
  { env := fun k => if k = "AZURE_CONFIG_DIR" then some "/cfg" else none
    home := some "/home/user"
    files := fun p =>
      if p = "/cfg/azureProfile.json" then some (strBytes profileEmpty)
      else none }

/-! ## Helper lemmas -/

/-- The BOM test compares `bytes.get(0..2)` — a slice of at most two bytes —
against a three-byte pattern, so it never matches and the buffer is always
passed through unchanged. -/
theorem bom_branch_never_fires (bytes : List Nat) :
    (match get_range bytes 0 2 with
     | some s => if s = [239, 187, 191] then bytes.drop 3 else bytes
     | none => bytes) = bytes := by
  unfold get_range
  by_cases h : 2 ≤ bytes.length
  · have hne : ¬ (List.take 2 bytes = [239, 187, 191]) := by
      intro he
      have hl := congrArg List.length he
      simp [List.length_take] at hl
      omega
    simp [h, hne]
  · simp [h]

/-- `parse_json` hands the raw file bytes to the JSON parser unchanged. -/
theorem parse_json_raw (ext : Extern) (ctx : Context) (p : String) :
    parse_json ext ctx p = (ctx.files p).bind ext.jsonParse := by
  unfold parse_json
  cases hf : ctx.files p with
  | none => rfl
  | some bytes =>
    show ext.jsonParse
      (match get_range bytes 0 2 with
       | some s => if s = [239, 187, 191] then bytes.drop 3 else bytes
       | none => bytes) = _
    rw [bom_branch_never_fires]
    rfl

/-- A record with a string id equal to the target and a string name yields
that name. -/
theorem find_subscription_name_some (r : JValue) (target n : String)
    (hid : (r.index "id").as_str = some target)
    (hname : (r.index "name").as_str = some n) :
    find_subscription_name r target = some n := by
  unfold find_subscription_name
  rw [hid]
  simp [hname]

/-- `findSome?` over a cons whose head yields nothing continues on the tail. -/
theorem findSome?_cons_of_none {α β : Type} (f : α → Option β) (x : α)
    (xs : List α) (h : f x = none) :
    (x :: xs).findSome? f = xs.findSome? f := by
  simp [List.findSome?, h]

/-- `findSome?` over a cons whose head yields a value returns it. -/
theorem findSome?_cons_of_some {α β : Type} (f : α → Option β) (x : α)
    (xs : List α) (b : β) (h : f x = some b) :
    (x :: xs).findSome? f = some b := by
  simp [List.findSome?, h]

/-- The scan of `pre ++ r :: post` where `pre` yields nothing and `r` yields
a name returns that name, whatever `post` is. -/
theorem scan_first_match (target n : String) (r : JValue)
    (pre post : List JValue)
    (hpre : ∀ s ∈ pre, find_subscription_name s target = none)
    (hr : find_subscription_name r target = some n) :
    (pre ++ r :: post).findSome? (fun s => find_subscription_name s target)
      = some n := by
  induction pre with
  | nil =>
    simpa using findSome?_cons_of_some _ r post n hr
  | cons s ss ih =>
    have hs : find_subscription_name s target = none := hpre s (by simp)
    have : ((s :: ss) ++ r :: post).findSome?
        (fun s => find_subscription_name s target)
        = (ss ++ r :: post).findSome?
          (fun s => find_subscription_name s target) := by
      simpa using findSome?_cons_of_none
        (fun s => find_subscription_name s target) s (ss ++ r :: post) hs
    rw [this]
    exact ih (fun s hm => hpre s (by simp [hm]))

/-- When the location resolves, `get_azure_subscription_name` is the scan of
the subscriptions array of the parsed profile. -/
theorem subscription_name_eq_scan (ext : Extern) (ctx : Context)
    (loc target : String) (pj : JValue) (subs : List JValue)
    (hloc : get_config_file_location ctx = some loc)
    (hjson : parse_json ext ctx (pushPath loc "azureProfile.json") = some pj)
    (harr : (pj.index "subscriptions").as_array = some subs) :
    get_azure_subscription_name ext ctx target
      = subs.findSome? (fun s => find_subscription_name s target) := by
  unfold get_azure_subscription_name
  rw [hloc]
  simp only [hjson, harr]

/-- A module run whose subscription-id step returns None yields absence. -/
theorem module_of_id_none (ext : Extern) (ctx : Context) (cfg : AzureConfig)
    (h : get_azure_subscription_id ext ctx = .ok none) :
    module ext ctx cfg = .ok { segments := none, warnings := [] } := by
  unfold module
  simp only [h]

/-- A module run whose name-resolution step returns None yields absence. -/
theorem module_of_name_none (ext : Extern) (ctx : Context) (cfg : AzureConfig)
    (i : String) (hid : get_azure_subscription_id ext ctx = .ok (some i))
    (hn : get_azure_subscription_name ext ctx i = none) :
    module ext ctx cfg = .ok { segments := none, warnings := [] } := by
  unfold module
  simp only [hid, hn]

/-- A missing config location makes the subscription-id step return None. -/
theorem id_none_of_no_location (ext : Extern) (ctx : Context)
    (h : get_config_file_location ctx = none) :
    get_azure_subscription_id ext ctx = .ok none := by
  unfold get_azure_subscription_id
  rw [h]

/-! ## The claims -/

/-- Claim C1 (refuted by the code): the claim says that when clouds.config
parses but lacks the AzureCloud section or the subscription key,
`get_azure_subscription_id` returns None and never aborts. In fact the
source unwraps both lookups: on either missing piece the function panics,
and the panic propagates through `module`. Evaluated here on a config whose
only section is OtherCloud and on one whose AzureCloud section lacks the
subscription key. -/
theorem C1_missing_section_or_key_panics :
    get_azure_subscription_id extModel
      (mkCtx "/cfg" (some cloudsNoSection) none) = PanicOr.panics ∧
    get_azure_subscription_id extModel
      (mkCtx "/cfg" (some cloudsNoKey) none) = PanicOr.panics ∧
    module extModel (mkCtx "/cfg" (some cloudsNoSection) (some profileDup))
      AzureConfig.default = PanicOr.panics := by
  exact ⟨by decide, by decide, by decide⟩

/-- Claim C2 (refuted by the code): the claim says a BOM-prefixed profile
document parses identically to the unprefixed one. The source tests
`bytes.get(0..2)` — at most two bytes — against the three-byte BOM pattern,
so the branch never fires and the BOM is never stripped; the JSON parser
then rejects the BOM-prefixed document that parses fine without the
prefix. -/
theorem C2_bom_never_stripped :
    parse_json extModel ctxBom "/cfg/azureProfile.json" = none ∧
    parse_json extModel ctxPlain "/cfg/azureProfile.json"
      = some (JValue.obj [("subscriptions", JValue.arr [])]) ∧
    parse_json extModel ctxBom "/cfg/azureProfile.json"
      ≠ parse_json extModel ctxPlain "/cfg/azureProfile.json" := by
  have h1 : parse_json extModel ctxBom "/cfg/azureProfile.json" = none := rfl
  have h2 : parse_json extModel ctxPlain "/cfg/azureProfile.json"
      = some (JValue.obj [("subscriptions", JValue.arr [])]) := rfl
  refine ⟨h1, h2, ?_⟩
  rw [h1, h2]
  intro hc
  exact Option.noConfusion hc

/-- Claim C3, counterexample: with AZURE_CONFIG_DIR set to the empty string
and a resolvable home directory, the claim demands the home fallback
`/home/user/.azure`; the code takes the empty override verbatim. -/
theorem C3_empty_override_counterexample :
    get_config_file_location ctxEmptyEnv = some "" ∧
    get_config_file_location ctxEmptyEnv
      ≠ some (pushPath "/home/user" ".azure") := by
  exact ⟨rfl, by decide⟩

/-- Claim C3 as amended: `get_config_file_location` returns the verbatim
value of AZURE_CONFIG_DIR whenever the variable is set — even to the empty
string — ignoring the home fallback; otherwise `<home>/.azure` when a home
directory is resolvable; otherwise absence. -/
theorem C3_location_resolution (ctx : Context) :
    get_config_file_location ctx =
      match ctx.env "AZURE_CONFIG_DIR" with
      | some v => some v
      | none => ctx.home.map (fun h => pushPath h ".azure") := by
  unfold get_config_file_location
  cases henv : ctx.env "AZURE_CONFIG_DIR" with
  | none => cases hh : ctx.home <;> rfl
  | some v => rfl

/-- Claim C4, counterexample: in a profile whose subscriptions array is
`[subBadName, subGoodName]` — two records with id `I`, the first with the
number 42 as its name — resolution of `I` yields `Sub B`, the name of the
second record, not the (non-string) name of the first; with the later
record removed the result changes to None, so the record after the first
match was inspected. -/
theorem C4_first_duplicate_counterexample :
    parse_json extModel (mkCtx "/cfg" (some cloudsOk) (some profileDupBadName))
      (pushPath "/cfg" "azureProfile.json")
      = some (JValue.obj [("subscriptions",
          JValue.arr [subBadName, subGoodName])]) ∧
    get_azure_subscription_name extModel
      (mkCtx "/cfg" (some cloudsOk) (some profileDupBadName)) "I"
      = some "Sub B" ∧
    (subBadName.index "name").as_str = none ∧
    get_azure_subscription_name extModel
      (mkCtx "/cfg" (some cloudsOk) (some profileBadNameOnly)) "I" = none := by
  exact ⟨rfl, rfl, rfl, rfl⟩

/-- Claim C4 as amended: resolution returns the name of the first record in
document order whose id is a string equal to the target and whose name is a
string, and records after that one are never inspected — replacing
everything after it leaves the result of the scan unchanged. -/
theorem C4_first_matching_named_record_wins
    (ext : Extern) (ctx : Context) (loc target n : String) (pj : JValue)
    (pre post post' : List JValue) (r : JValue)
    (hloc : get_config_file_location ctx = some loc)
    (hjson : parse_json ext ctx (pushPath loc "azureProfile.json") = some pj)
    (harr : (pj.index "subscriptions").as_array = some (pre ++ r :: post))
    (hid : (r.index "id").as_str = some target)
    (hname : (r.index "name").as_str = some n)
    (hpre : ∀ s ∈ pre, find_subscription_name s target = none) :
    get_azure_subscription_name ext ctx target = some n ∧
    (pre ++ r :: post').findSome? (fun s => find_subscription_name s target)
      = some n := by
  have hr := find_subscription_name_some r target n hid hname
  refine ⟨?_, scan_first_match target n r pre post' hpre hr⟩
  rw [subscription_name_eq_scan ext ctx loc target pj (pre ++ r :: post)
    hloc hjson harr]
  exact scan_first_match target n r pre post hpre hr

/-- Witness for the amended C4 theorem at the two-record duplicate profile:
the name of the first record, `Sub A`, wins. -/
theorem C4_first_matching_named_record_wins_witness :
    get_azure_subscription_name extModel
      (mkCtx "/cfg" (some cloudsOk) (some profileDup)) "I" = some "Sub A" ∧
    ([] ++ subDupA :: ([] : List JValue)).findSome?
      (fun s => find_subscription_name s "I") = some "Sub A" :=
  C4_first_matching_named_record_wins extModel
    (mkCtx "/cfg" (some cloudsOk) (some profileDup)) "/cfg" "I" "Sub A"
    (JValue.obj [("subscriptions", JValue.arr [subDupA, subDupB])])
    [] [subDupB] [] subDupA rfl rfl rfl rfl rfl (by simp)

/-- Claim C5: resolution produces a result only from a fully resolved
(identifier, name) pair — no config location, no identifier, or an
identifier matching no record all make `module` yield absence, and a
rendered result implies both steps succeeded. -/
theorem C5_only_fully_resolved (ext : Extern) (ctx : Context)
    (cfg : AzureConfig) :
    (get_config_file_location ctx = none →
      module ext ctx cfg = .ok { segments := none, warnings := [] }) ∧
    (get_azure_subscription_id ext ctx = .ok none →
      module ext ctx cfg = .ok { segments := none, warnings := [] }) ∧
    (∀ i, get_azure_subscription_id ext ctx = .ok (some i) →
      get_azure_subscription_name ext ctx i = none →
      module ext ctx cfg = .ok { segments := none, warnings := [] }) ∧
    (∀ out, module ext ctx cfg = .ok out → out.segments ≠ none →
      ∃ i n, get_azure_subscription_id ext ctx = .ok (some i) ∧
        get_azure_subscription_name ext ctx i = some n) := by
  refine ⟨?_, ?_, ?_, ?_⟩
  · intro h
    exact module_of_id_none ext ctx cfg (id_none_of_no_location ext ctx h)
  · intro h
    exact module_of_id_none ext ctx cfg h
  · intro i hid hn
    exact module_of_name_none ext ctx cfg i hid hn
  · intro out hmod hseg
    unfold module at hmod
    cases hid : get_azure_subscription_id ext ctx with
    | panics =>
      rw [hid] at hmod
      exact PanicOr.noConfusion hmod
    | ok oid =>
      cases oid with
      | none =>
        rw [hid] at hmod
        injection hmod with h
        rw [← h] at hseg
        exact absurd rfl hseg
      | some i =>
        cases hn : get_azure_subscription_name ext ctx i with
        | none =>
          rw [hid] at hmod
          simp only [hn] at hmod
          injection hmod with h
          rw [← h] at hseg
          exact absurd rfl hseg
        | some n => exact ⟨i, n, rfl, hn⟩

/-- Witness for C5 at concrete inputs: no location, missing clouds.config,
an identifier matching no record, an empty array, and a fully resolved
run. -/
theorem C5_only_fully_resolved_witness :
    module extModel ctxBare AzureConfig.default
      = .ok { segments := none, warnings := [] } ∧
    module extModel (mkCtx "/cfg" none none) AzureConfig.default
      = .ok { segments := none, warnings := [] } ∧
    module extModel (mkCtx "/cfg" (some cloudsOk) (some profileNoMatch))
      AzureConfig.default = .ok { segments := none, warnings := [] } ∧
    module extModel (mkCtx "/cfg" (some cloudsOk) (some profileEmpty))
      AzureConfig.default = .ok { segments := none, warnings := [] } ∧
    (∃ i n, get_azure_subscription_id extModel
        (mkCtx "/cfg" (some cloudsOk) (some profileDup)) = .ok (some i) ∧
      get_azure_subscription_name extModel
        (mkCtx "/cfg" (some cloudsOk) (some profileDup)) i = some n) :=
  ⟨(C5_only_fully_resolved extModel ctxBare AzureConfig.default).1 rfl,
   (C5_only_fully_resolved extModel (mkCtx "/cfg" none none)
     AzureConfig.default).2.1 rfl,
   (C5_only_fully_resolved extModel
     (mkCtx "/cfg" (some cloudsOk) (some profileNoMatch))
     AzureConfig.default).2.2.1 "I" rfl rfl,
   (C5_only_fully_resolved extModel
     (mkCtx "/cfg" (some cloudsOk) (some profileEmpty))
     AzureConfig.default).2.2.1 "I" rfl rfl,
   (C5_only_fully_resolved extModel
     (mkCtx "/cfg" (some cloudsOk) (some profileDup))
     AzureConfig.default).2.2.2
     { segments := some ["on ", "Sub A"], warnings := [] } rfl (by decide)⟩

/-- Claim C6: a profile whose bytes fail to parse as JSON, or whose
top-level subscriptions field is absent or not an array, makes name
resolution yield absence. -/
theorem C6_malformed_document_absence (ext : Extern) (ctx : Context)
    (target loc : String)
    (hloc : get_config_file_location ctx = some loc) :
    (∀ bytes, ctx.files (pushPath loc "azureProfile.json") = some bytes →
      ext.jsonParse bytes = none →
      get_azure_subscription_name ext ctx target = none) ∧
    (∀ pj, parse_json ext ctx (pushPath loc "azureProfile.json") = some pj →
      (pj.index "subscriptions").as_array = none →
      get_azure_subscription_name ext ctx target = none) := by
  constructor
  · intro bytes hf hp
    have hpj : parse_json ext ctx (pushPath loc "azureProfile.json") = none := by
      rw [parse_json_raw, hf]
      simpa using hp
    unfold get_azure_subscription_name
    rw [hloc]
    simp only [hpj]
  · intro pj hpj harr
    unfold get_azure_subscription_name
    rw [hloc]
    simp only [hpj, harr]

/-- Witness for C6: malformed bytes, a profile with no subscriptions field,
and one whose subscriptions field is a string, all resolve to None. -/
theorem C6_malformed_document_absence_witness :
    get_azure_subscription_name extModel
      (mkCtx "/cfg" (some cloudsOk) (some malformedJson)) "I" = none ∧
    get_azure_subscription_name extModel
      (mkCtx "/cfg" (some cloudsOk) (some profileNoSubs)) "I" = none ∧
    get_azure_subscription_name extModel
      (mkCtx "/cfg" (some cloudsOk) (some profileSubsNotArr)) "I" = none :=
  ⟨(C6_malformed_document_absence extModel
      (mkCtx "/cfg" (some cloudsOk) (some malformedJson)) "I" "/cfg" rfl).1
      (strBytes malformedJson) rfl rfl,
   (C6_malformed_document_absence extModel
      (mkCtx "/cfg" (some cloudsOk) (some profileNoSubs)) "I" "/cfg" rfl).2
      (JValue.obj [("other", JValue.num "1")]) rfl rfl,
   (C6_malformed_document_absence extModel
      (mkCtx "/cfg" (some cloudsOk) (some profileSubsNotArr)) "I" "/cfg" rfl).2
      (JValue.obj [("subscriptions", JValue.str "oops")]) rfl rfl⟩

/-- Claim C7: a missing or unparseable clouds.config makes the identifier
reader return None, a missing azureProfile.json makes the name reader
return None, and a directory with neither file makes the whole module run
yield absence without error. -/
theorem C7_missing_files_absence (ext : Extern) (ctx : Context)
    (cfg : AzureConfig) (loc : String)
    (hloc : get_config_file_location ctx = some loc) :
    (ctx.files (pushPath loc "clouds.config") = none →
      get_azure_subscription_id ext ctx = .ok none) ∧
    (∀ bytes, ctx.files (pushPath loc "clouds.config") = some bytes →
      ext.iniParse bytes = none →
      get_azure_subscription_id ext ctx = .ok none) ∧
    (ctx.files (pushPath loc "azureProfile.json") = none →
      ∀ t, get_azure_subscription_name ext ctx t = none) ∧
    (ctx.files (pushPath loc "clouds.config") = none →
      module ext ctx cfg = .ok { segments := none, warnings := [] }) := by
  have hid_missing : ctx.files (pushPath loc "clouds.config") = none →
      get_azure_subscription_id ext ctx = .ok none := by
    intro h
    unfold get_azure_subscription_id
    rw [hloc]
    simp only [h, Option.bind]
  refine ⟨hid_missing, ?_, ?_, ?_⟩
  · intro bytes hf hp
    unfold get_azure_subscription_id
    rw [hloc]
    simp only [hf, hp, Option.bind]
  · intro h t
    have hpj : parse_json ext ctx (pushPath loc "azureProfile.json") = none := by
      rw [parse_json_raw, h]
      rfl
    unfold get_azure_subscription_name
    rw [hloc]
    simp only [hpj]
  · intro h
    exact module_of_id_none ext ctx cfg (hid_missing h)

/-- Witness for C7 at concrete inputs: an empty config directory and a
clouds.config whose bytes do not parse as INI. -/
theorem C7_missing_files_absence_witness :
    get_azure_subscription_id extModel (mkCtx "/cfg" none none)
      = .ok none ∧
    get_azure_subscription_id extModel (mkCtx "/cfg" (some "garbage") none)
      = .ok none ∧
    get_azure_subscription_name extModel (mkCtx "/cfg" none none) "I"
      = none ∧
    module extModel (mkCtx "/cfg" none none) AzureConfig.default
      = .ok { segments := none, warnings := [] } :=
  ⟨(C7_missing_files_absence extModel (mkCtx "/cfg" none none)
      AzureConfig.default "/cfg" rfl).1 rfl,
   (C7_missing_files_absence extModel (mkCtx "/cfg" (some "garbage") none)
      AzureConfig.default "/cfg" rfl).2.1 (strBytes "garbage") rfl rfl,
   (C7_missing_files_absence extModel (mkCtx "/cfg" none none)
      AzureConfig.default "/cfg" rfl).2.2.1 rfl "I",
   (C7_missing_files_absence extModel (mkCtx "/cfg" none none)
      AzureConfig.default "/cfg" rfl).2.2.2 rfl⟩

/-- Claim C8: whenever the template engine reports a failure on a fully
resolved run, `module` logs one warning and returns absence rather than
propagating the failure. -/
theorem C8_template_error_suppressed (ext : Extern) (ctx : Context)
    (cfg : AzureConfig) (i n e : String)
    (hid : get_azure_subscription_id ext ctx = .ok (some i))
    (hname : get_azure_subscription_name ext ctx i = some n)
    (hfmt : ext.formatterParse cfg.format
      (fun v => if v = "symbol" then some cfg.symbol else none)
      (fun v => if v = "style" then some cfg.style else none)
      (fun v => if v = "subscription" then some n else none) = .error e) :
    module ext ctx cfg
      = .ok { segments := none
              warnings := ["Error in module `azure`:\n" ++ e] } := by
  unfold module
  simp only [hid, hname, hfmt]

/-- Witness for C8: a template engine that always errors makes the module
run return absence with one warning. -/
theorem C8_template_error_suppressed_witness :
    module extModelErr (mkCtx "/cfg" (some cloudsOk) (some profileDup))
      AzureConfig.default
      = .ok { segments := none
              warnings := ["Error in module `azure`:\n" ++ "bad template"] } :=
  C8_template_error_suppressed extModelErr
    (mkCtx "/cfg" (some cloudsOk) (some profileDup)) AzureConfig.default
    "I" "Sub A" "bad template" rfl rfl rfl

/-- Claim C9: the disabled flag is read but never acted on — `module`
behaves identically with disabled = true and disabled = false. -/
theorem C9_disabled_flag_ignored (ext : Extern) (ctx : Context)
    (format symbol style : String) :
    module ext ctx
      { format := format, symbol := symbol, style := style, disabled := true }
      = module ext ctx
        { format := format, symbol := symbol, style := style,
          disabled := false } := rfl

/-- Claim C10: an entry whose id is not a string, or whose id matches the
target but whose name is missing or not a string, contributes no result,
and the scan continues with the remaining entries. -/
theorem C10_unusable_entry_skipped (target : String) (r : JValue)
    (rest : List JValue)
    (h : (r.index "id").as_str = none ∨
      ((r.index "id").as_str = some target ∧
        (r.index "name").as_str = none)) :
    find_subscription_name r target = none ∧
    (r :: rest).findSome? (fun s => find_subscription_name s target)
      = rest.findSome? (fun s => find_subscription_name s target) := by
  have hf : find_subscription_name r target = none := by
    unfold find_subscription_name
    rcases h with h1 | ⟨h1, h2⟩
    · rw [h1]
    · rw [h1]
      simp [h2]
  exact ⟨hf, findSome?_cons_of_none _ r rest hf⟩

/-- Witness for C10: the record with a numeric name and the record with a
numeric id are both skipped, and the later record with the same id and a
string name supplies the resolved name. -/
theorem C10_unusable_entry_skipped_witness :
    find_subscription_name subBadName "I" = none ∧
    (subBadName :: [subGoodName]).findSome?
      (fun s => find_subscription_name s "I") = some "Sub B" ∧
    find_subscription_name subNumId "I" = none ∧
    (subNumId :: [subGoodName]).findSome?
      (fun s => find_subscription_name s "I") = some "Sub B" := by
  have h1 := C10_unusable_entry_skipped "I" subBadName [subGoodName]
    (Or.inr ⟨rfl, rfl⟩)
  have h2 := C10_unusable_entry_skipped "I" subNumId [subGoodName]
    (Or.inl rfl)
  refine ⟨h1.1, ?_, h2.1, ?_⟩
  · rw [h1.2]
    rfl
  · rw [h2.2]
    rfl

end Azure
